import Mathlib

/-!
Verification of the keycloak_api_client library (keycloak_api_client/api_client.py).

The client is a sequence of synchronous HTTP request/response wrappers.  We embed it
shallowly: every method of `KeycloakApiClient` becomes a Lean function that takes

  * the immutable configuration (the constructor arguments),
  * an oracle `Nat → Response` giving the response to the n-th network call made by
    the client instance (network calls are strictly sequential, so the call index is
    the length of the request trace so far),
  * the mutable instance state (the cached `admin_user_access_token` together with
    the trace of requests issued so far),

and returns the new state paired with `Except PyError α` — the Python method either
returns a value or raises.  JSON payloads are modelled by an inductive `Json` type;
Python truthiness (`if self.admin_user_access_token:`, `if email:`, ...) is modelled
exactly, including the fact that the empty string and the empty list are falsy.

Modelling notes kept throughout: tokens and ids are modelled as strings (a UUID is
identified with its string form); exception messages keep the static prefix of the
Python message but elide the interpolated response body; response bodies at places
where the code requires a JSON list (user search, federated identities) are required
to be `Json.arr` — any other shape is mapped to the generic `PyError.typeError`
marker, standing for the unmodelled Python runtime behaviour on such inputs.
-/

/-- JSON values as found on the wire. -/
inductive Json where
  | null : Json
  | bool (b : Bool) : Json
  | num (n : Int) : Json
  | str (s : String) : Json
  | arr (items : List Json) : Json
  | obj (fields : List (String × Json)) : Json
deriving Repr

/-- Python truthiness of a JSON value (`if not user_data: ...`). -/
def Json.truthy : Json → Bool
  | .null => false
  | .bool b => b
  | .num n => n != 0
  | .str s => !s.isEmpty
  | .arr items => !items.isEmpty
  | .obj fields => !fields.isEmpty

/-- Errors a client method can raise: the KeycloakApiClientException of the library
(message kept without the interpolated response body), plus markers for the Python
runtime errors on ill-shaped data (KeyError on a missing dictionary key, TypeError
standing for any unmodelled runtime failure on ill-shaped data). -/
inductive PyError where
  | apiClientException (msg : String) : PyError
  | keyError (key : String) : PyError
  | typeError : PyError
deriving Repr, BEq

/-- Python subscription `j[key]` on a JSON value: a value for an object containing
the key, KeyError for an object missing it, TypeError otherwise. -/
def Json.getKey : Json → String → Except PyError Json
  | .obj fields, key =>
    match fields.lookup key with
    | some v => .ok v
    | none => .error (.keyError key)
  | _, _ => .error .typeError

/-- Python equality between a JSON value and a Python string: true exactly when the
value is that string (any non-string JSON value compares unequal to a string). -/
def Json.eqStr : Json → String → Bool
  | .str s, t => s == t
  | _, _ => false

/-- Python truthiness of an optional string (None and the empty string are falsy). -/
def pyTruthyStrOpt : Option String → Bool
  | none => false
  | some s => !s.isEmpty

/-- Hex digit used by the percent encoder. -/
def hexDigit (n : Nat) : Char :=
  ("0123456789ABCDEF".toList).getD n '0'

/-- urllib.parse.quote on one character (ASCII model: unreserved characters and the
default safe character / pass through, everything else is percent-encoded). -/
def quoteChar (c : Char) : String :=
  if c.isAlphanum || c = '_' || c = '.' || c = '-' || c = '~' || c = '/' then
    String.singleton c
  else
    "%" ++ String.singleton (hexDigit (c.toNat / 16)) ++ String.singleton (hexDigit (c.toNat % 16))

/-- urllib.parse.quote (ASCII model). -/
def quote (s : String) : String :=
  String.join (s.toList.map quoteChar)

/-- HTTP methods used by the client. -/
inductive Method where
  | get : Method
  | post : Method
  | put : Method
deriving Repr, BEq

/-- One network request as issued through the requests library: method, url, an
optional JSON body (for calls passing data=json.dumps(...)), form fields (for calls
passing data=dict, kept in source order), and headers (kept in source order). -/
structure Request where
  method : Method
  url : String
  body : Option Json
  form : List (String × String)
  headers : List (String × String)
deriving Repr

/-- One network response: status code, parsed JSON body, response headers. -/
structure Response where
  status : Nat
  jsonBody : Json
  headers : List (String × String)
deriving Repr

/-- requests.Response.ok: status code below 400. -/
def Response.ok (r : Response) : Bool :=
  r.status < 400

/-- The response oracle: the response the server gives to the n-th network call made
by this client instance. -/
abbrev Oracle := Nat → Response

/-- Constructor arguments of KeycloakApiClient, set once and never mutated. -/
structure Config where
  keycloak_url : String
  realm : String
  admin_username : String
  admin_password : String
  admin_client_id : String
  admin_client_secret : String
  token_exchange_target_client_id : String
deriving Repr, BEq

/-- Mutable state of a client instance: the cached admin access token (class
attribute admin_user_access_token, initially None) and the trace of requests issued
so far, in order. -/
structure ClientState where
  admin_user_access_token : Option String
  trace : List Request
deriving Repr

/-- A fresh client instance: no cached token, no network calls issued yet. -/
def ClientState.fresh : ClientState :=
  { admin_user_access_token := none, trace := [] }

/-- Issue one network call: the response is the oracle at the current call index
(the trace length) and the request is appended to the trace. -/
def httpCall (o : Oracle) (st : ClientState) (req : Request) : Response × ClientState :=
  (o st.trace.length, { st with trace := st.trace ++ [req] })

/-- KeycloakApiClient._get_token_url. -/
def get_token_url (cfg : Config) : String :=
  cfg.keycloak_url ++ "/auth/realms/" ++ cfg.realm ++ "/protocol/openid-connect/token"

/-- KeycloakApiClient._get_users_url. -/
def get_users_url (cfg : Config) : String :=
  cfg.keycloak_url ++ "/auth/admin/realms/" ++ cfg.realm ++ "/users"

/-- KeycloakApiClient._get_identities_url. -/
def get_identities_url (cfg : Config) (user_id : String) : String :=
  get_users_url cfg ++ "/" ++ user_id ++ "/federated-identity"

/-- The password-grant request issued by _get_api_admin_oidc_token. -/
def adminTokenRequest (cfg : Config) : Request :=
  { method := .post
    url := get_token_url cfg
    body := none
    form := [("grant_type", "password"),
             ("username", cfg.admin_username),
             ("password", cfg.admin_password),
             ("client_id", cfg.admin_client_id),
             ("client_secret", cfg.admin_client_secret)]
    headers := [("Content-Type", "application/x-www-form-urlencoded")] }

/-- KeycloakApiClient._get_api_admin_oidc_token: return the cached token if it is
truthy, otherwise perform the password grant, cache the access_token field of the
response and return it.  A non-string access_token is outside the model (the Python
code would cache it as-is) and maps to the typeError marker. -/
def get_api_admin_oidc_token (cfg : Config) (o : Oracle) (st : ClientState) :
    ClientState × Except PyError String :=
  if pyTruthyStrOpt st.admin_user_access_token then
    (st, .ok (st.admin_user_access_token.getD ""))
  else
    let (response, st1) := httpCall o st (adminTokenRequest cfg)
    if !response.ok then
      (st1, .error (.apiClientException "Error while obtaining api-admin access_token"))
    else
      match response.jsonBody.getKey "access_token" with
      | .error e => (st1, .error e)
      | .ok (.str s) => ({ st1 with admin_user_access_token := some s }, .ok s)
      | .ok _ => (st1, .error .typeError)

/-- KeycloakApiClient._get_authorization_header. -/
def get_authorization_header (cfg : Config) (o : Oracle) (st : ClientState) :
    ClientState × Except PyError String :=
  match get_api_admin_oidc_token cfg o st with
  | (st1, .error e) => (st1, .error e)
  | (st1, .ok t) => (st1, .ok ("Bearer " ++ t))

/-- Modelled from the spec: the repository file data_classes.py is not under src.
The spec (section 3, FederatedIdentityLink) describes a link as provider name plus
remote user id and remote username. -/
structure KeycloakFederatedIdentity where
  provider_name : String
  user_id : String
  user_name : String
deriving Repr, BEq

/-- Modelled from the spec: the repository file data_classes.py is not under src.
The spec (section 3, TokenPair) describes a pair of access and refresh tokens. -/
structure KeycloakTokens where
  access_token : String
  refresh_token : String
deriving Repr, BEq

/-- Modelled from the spec: the repository file data_classes.py is not under src.
The spec (section 3, WriteUserRequest) describes username, first and last name,
email, enabled flag, email-verified flag, free-form attributes, optional raw or
hashed password, optional list of federated identity links, optional existing id. -/
structure WriteKeycloakUser where
  keycloak_id : Option String
  username : String
  first_name : String
  last_name : String
  email : String
  enabled : Bool
  email_verified : Bool
  attributes : Json
  raw_password : Option String
  hashed_password : Option String
  federated_identities : List KeycloakFederatedIdentity
deriving Repr

/-- Modelled from the spec: the repository file data_classes.py is not under src.
The spec (section 3, ReadUserResult) describes a normalized view of a remote user
record: id, username, names, email, flags, attributes. -/
structure ReadKeycloakUser where
  keycloak_id : Json
  username : Json
  first_name : Json
  last_name : Json
  email : Json
  enabled : Json
  email_verified : Json
  attributes : Json
deriving Repr

/-- Field of a JSON user record, Json.null when absent. -/
def Json.fieldD (j : Json) (key : String) : Json :=
  match j with
  | .obj fields => (fields.lookup key).getD .null
  | _ => .null

/-- Modelled from the spec: the repository file factories.py
(read_keycloak_user_factory) is not under src.  The spec (section 4.4) describes it
as a straight field rename/normalize from the user endpoint JSON to the typed
record, called only on known-good payloads. -/
def read_keycloak_user_factory (user_endpoint_data : Json) : ReadKeycloakUser :=
  { keycloak_id := user_endpoint_data.fieldD "id"
    username := user_endpoint_data.fieldD "username"
    first_name := user_endpoint_data.fieldD "firstName"
    last_name := user_endpoint_data.fieldD "lastName"
    email := user_endpoint_data.fieldD "email"
    enabled := user_endpoint_data.fieldD "enabled"
    email_verified := user_endpoint_data.fieldD "emailVerified"
    attributes := user_endpoint_data.fieldD "attributes" }

/-- The GET request issued by _get_user_identities. -/
def identitiesGetRequest (cfg : Config) (auth keycloak_id : String) : Request :=
  { method := .get
    url := get_identities_url cfg keycloak_id
    body := none
    form := []
    headers := [("Authorization", auth)] }

/-- KeycloakApiClient._get_user_identities: GET the federated identities of the
user, raising on a non-success response, returning the JSON body otherwise. -/
def get_user_identities (cfg : Config) (o : Oracle) (keycloak_id : String)
    (st : ClientState) : ClientState × Except PyError Json :=
  match get_authorization_header cfg o st with
  | (st1, .error e) => (st1, .error e)
  | (st1, .ok auth) =>
    let (response, st2) := httpCall o st1 (identitiesGetRequest cfg auth keycloak_id)
    if !response.ok then
      (st2, .error (.apiClientException "Error while retrieving identities of user"))
    else
      (st2, .ok response.jsonBody)

/-- The keys of the dictionary comprehension keyed by identityProvider in
_update_user_identities: the identityProvider entry of each returned identity
(subscription failures propagate as in Python). -/
def collectIdentityKeys : List Json → Except PyError (List Json)
  | [] => .ok []
  | j :: rest =>
    match j.getKey "identityProvider" with
    | .error e => .error e
    | .ok k =>
      match collectIdentityKeys rest with
      | .error e => .error e
      | .ok ks => .ok (k :: ks)

/-- The membership test of the reconciliation loop: Python
identity.provider_name in keycloak_identities, i.e. the provider name equals one of
the keys of the current remote identity dictionary. -/
def providerPresent (keys : List Json) (identity : KeycloakFederatedIdentity) : Bool :=
  keys.any (fun k => k.eqStr identity.provider_name)

/-- The upsert POST issued by _update_user_identities for one desired link. -/
def upsertIdentityRequest (cfg : Config) (auth keycloak_id : String)
    (identity : KeycloakFederatedIdentity) : Request :=
  { method := .post
    url := get_identities_url cfg keycloak_id ++ "/" ++ identity.provider_name
    body := some (Json.obj [("identityProvider", .str identity.provider_name),
                            ("userId", .str identity.user_id),
                            ("userName", .str identity.user_name)])
    form := []
    headers := [("Content-Type", "application/json"), ("Authorization", auth)] }

/-- The for-loop of _update_user_identities: for each desired link whose provider
name is a key of the current remote identity dictionary, recompute the
authorization header (Python evaluates it inside each requests.post call) and issue
the upsert, raising on the first non-success response; links whose provider is not
a current key are skipped without any call. -/
def update_user_identities_loop (cfg : Config) (o : Oracle) (keycloak_id : String)
    (keys : List Json) :
    List KeycloakFederatedIdentity → ClientState → ClientState × Except PyError Unit
  | [], st => (st, .ok ())
  | identity :: rest, st =>
    if providerPresent keys identity then
      match get_authorization_header cfg o st with
      | (st1, .error e) => (st1, .error e)
      | (st1, .ok auth) =>
        let (response, st2) := httpCall o st1 (upsertIdentityRequest cfg auth keycloak_id identity)
        if !response.ok then
          (st2, .error (.apiClientException "Error while creating identity for user"))
        else
          update_user_identities_loop cfg o keycloak_id keys rest st2
    else
      update_user_identities_loop cfg o keycloak_id keys rest st

/-- KeycloakApiClient._update_user_identities: fetch the current federated
identities, key them by identityProvider, then run the upsert loop over the desired
links.  The endpoint is expected to return a JSON list; any other shape maps to the
typeError marker. -/
def update_user_identities (cfg : Config) (o : Oracle) (keycloak_id : String)
    (federated_identities : List KeycloakFederatedIdentity) (st : ClientState) :
    ClientState × Except PyError Unit :=
  match get_user_identities cfg o keycloak_id st with
  | (st1, .error e) => (st1, .error e)
  | (st1, .ok body) =>
    match body with
    | .arr items =>
      match collectIdentityKeys items with
      | .error e => (st1, .error e)
      | .ok keys => update_user_identities_loop cfg o keycloak_id keys federated_identities st1
    | _ => (st1, .error .typeError)

/-- The GET request issued by _get_user_by_email. -/
def userByEmailRequest (cfg : Config) (auth email : String) : Request :=
  { method := .get
    url := get_users_url cfg ++ "?email=" ++ quote email
    body := none
    form := []
    headers := [("Authorization", auth)] }

/-- The for-loop of _get_user_by_email: the first returned candidate whose email
entry equals the queried email (a candidate without an email entry raises KeyError,
as in Python); falling off the loop returns None. -/
def findFirstExactEmail (email : String) : List Json → Except PyError (Option Json)
  | [] => .ok none
  | user :: rest =>
    match user.getKey "email" with
    | .error e => .error e
    | .ok v =>
      if v.eqStr email then .ok (some user)
      else findFirstExactEmail email rest

/-- KeycloakApiClient._get_user_by_email: GET the search-by-email endpoint, raise
on non-success, return None for an empty result list, otherwise the first exact
(case-sensitive) email match, or None when no candidate matches.  The endpoint is
expected to return a JSON list; any other shape maps to the typeError marker. -/
def get_user_by_email (cfg : Config) (o : Oracle) (email : String) (st : ClientState) :
    ClientState × Except PyError (Option Json) :=
  match get_authorization_header cfg o st with
  | (st1, .error e) => (st1, .error e)
  | (st1, .ok auth) =>
    let (response, st2) := httpCall o st1 (userByEmailRequest cfg auth email)
    if !response.ok then
      (st2, .error (.apiClientException "Error while retrieving user with email"))
    else
      match response.jsonBody with
      | .arr users =>
        if users.length == 0 then (st2, .ok none)
        else (st2, findFirstExactEmail email users)
      | _ => (st2, .error .typeError)

/-- The GET request issued by _get_user_by_id. -/
def userByIdRequest (cfg : Config) (auth id : String) : Request :=
  { method := .get
    url := get_users_url cfg ++ "/" ++ id
    body := none
    form := []
    headers := [("Authorization", auth)] }

/-- KeycloakApiClient._get_user_by_id: GET the single-user endpoint; a 404 status
returns None, any other non-success status raises, a success returns the body. -/
def get_user_by_id (cfg : Config) (o : Oracle) (id : String) (st : ClientState) :
    ClientState × Except PyError (Option Json) :=
  match get_authorization_header cfg o st with
  | (st1, .error e) => (st1, .error e)
  | (st1, .ok auth) =>
    let (response, st2) := httpCall o st1 (userByIdRequest cfg auth id)
    if response.status == 404 then
      (st2, .ok none)
    else if !response.ok then
      (st2, .error (.apiClientException "Error while retrieving user with id"))
    else
      (st2, .ok (some response.jsonBody))

/-- The data dictionary built first by _get_user_endpoint_schema_data: the fixed
field renames, before any credentials entry is added. -/
def userSchemaBaseFields (write_keycloak_user : WriteKeycloakUser) : List (String × Json) :=
  [("username", .str write_keycloak_user.username),
   ("firstName", .str write_keycloak_user.first_name),
   ("lastName", .str write_keycloak_user.last_name),
   ("email", .str write_keycloak_user.email),
   ("enabled", .bool write_keycloak_user.enabled),
   ("emailVerified", .bool write_keycloak_user.email_verified),
   ("attributes", write_keycloak_user.attributes)]

/-- KeycloakApiClient._get_user_endpoint_schema_data: the fixed field renames, plus
a credentials block when the raw password is truthy (plain password credential) or,
failing that, the hashed password is truthy (bcrypt credential with 12 iterations);
otherwise no credentials entry at all. -/
def get_user_endpoint_schema_data (write_keycloak_user : WriteKeycloakUser) : Json :=
  let data : List (String × Json) := userSchemaBaseFields write_keycloak_user
  if pyTruthyStrOpt write_keycloak_user.raw_password then
    .obj (data ++ [("credentials", .arr [.obj
      [("type", .str "password"),
       ("value", .str (write_keycloak_user.raw_password.getD "")),
       ("temporary", .bool false)]])])
  else if pyTruthyStrOpt write_keycloak_user.hashed_password then
    .obj (data ++ [("credentials", .arr [.obj
      [("hashedSaltedValue", .str (write_keycloak_user.hashed_password.getD "")),
       ("algorithm", .str "bcrypt"),
       ("hashIterations", .num 12),
       ("type", .str "password"),
       ("temporary", .bool false)]])])
  else
    .obj data

/-- Translation applied by get_keycloak_user to the looked-up record: None stays
None, a falsy record (e.g. the empty object) is also None, anything else is run
through the factory. -/
def translateUserData (user_data : Option Json) : Option ReadKeycloakUser :=
  match user_data with
  | none => none
  | some j => if j.truthy then some (read_keycloak_user_factory j) else none

/-- KeycloakApiClient.get_keycloak_user: dispatch on the truthiness of the email
argument, then on the presence of the id argument; with neither, raise the usage
error before any network call. -/
def get_keycloak_user (cfg : Config) (o : Oracle) (email : Option String)
    (keycloak_id : Option String) (st : ClientState) :
    ClientState × Except PyError (Option ReadKeycloakUser) :=
  if pyTruthyStrOpt email then
    match get_user_by_email cfg o (email.getD "") st with
    | (st1, .error e) => (st1, .error e)
    | (st1, .ok user_data) => (st1, .ok (translateUserData user_data))
  else if keycloak_id.isSome then
    match get_user_by_id cfg o (keycloak_id.getD "") st with
    | (st1, .error e) => (st1, .error e)
    | (st1, .ok user_data) => (st1, .ok (translateUserData user_data))
  else
    (st, .error (.apiClientException
      "Invalid get user call. Email or Keycloak Id has to be specified."))

/-- The create POST issued by register_user. -/
def registerUserRequest (cfg : Config) (auth : String) (write_keycloak_user : WriteKeycloakUser) :
    Request :=
  { method := .post
    url := get_users_url cfg
    body := some (get_user_endpoint_schema_data write_keycloak_user)
    form := []
    headers := [("Content-Type", "application/json"), ("Authorization", auth)] }

/-- The last path segment of the Location header, as Python
response.headers of Location then .split on the slash, last element: the suffix
after the last slash (the whole string when no slash occurs). -/
def lastPathSegment (location : String) : String :=
  String.mk ((location.toList.reverse.takeWhile (fun c => c != '/')).reverse)

/-- KeycloakApiClient.register_user: POST the user payload, raise on non-success,
read the new id from the Location header, reconcile federated identities when the
request carries a non-empty list, and return the new id (UUID parsing is modelled
as the identity on the string form). -/
def register_user (cfg : Config) (o : Oracle) (write_keycloak_user : WriteKeycloakUser)
    (st : ClientState) : ClientState × Except PyError String :=
  match get_authorization_header cfg o st with
  | (st1, .error e) => (st1, .error e)
  | (st1, .ok auth) =>
    let (response, st2) := httpCall o st1 (registerUserRequest cfg auth write_keycloak_user)
    if !response.ok then
      (st2, .error (.apiClientException "Error while creating user"))
    else
      match response.headers.lookup "Location" with
      | none => (st2, .error (.keyError "Location"))
      | some location =>
        let keycloak_id := lastPathSegment location
        if !write_keycloak_user.federated_identities.isEmpty then
          match update_user_identities cfg o keycloak_id
              write_keycloak_user.federated_identities st2 with
          | (st3, .error e) => (st3, .error e)
          | (st3, .ok _) => (st3, .ok keycloak_id)
        else
          (st2, .ok keycloak_id)

/-- The update PUT issued by update_user (a missing id renders as the Python string
None inside the f-string). -/
def updateUserRequest (cfg : Config) (auth : String) (write_keycloak_user : WriteKeycloakUser) :
    Request :=
  { method := .put
    url := get_users_url cfg ++ "/" ++ (write_keycloak_user.keycloak_id.getD "None")
    body := some (get_user_endpoint_schema_data write_keycloak_user)
    form := []
    headers := [("Content-Type", "application/json"), ("Authorization", auth)] }

/-- KeycloakApiClient.update_user: PUT the user payload, raise on non-success, then
reconcile federated identities when the request carries a non-empty list. -/
def update_user (cfg : Config) (o : Oracle) (write_keycloak_user : WriteKeycloakUser)
    (st : ClientState) : ClientState × Except PyError Unit :=
  match get_authorization_header cfg o st with
  | (st1, .error e) => (st1, .error e)
  | (st1, .ok auth) =>
    let (response, st2) := httpCall o st1 (updateUserRequest cfg auth write_keycloak_user)
    if !response.ok then
      (st2, .error (.apiClientException "Error while updating user"))
    else
      if !write_keycloak_user.federated_identities.isEmpty then
        match update_user_identities cfg o (write_keycloak_user.keycloak_id.getD "None")
            write_keycloak_user.federated_identities st2 with
        | (st3, .error e) => (st3, .error e)
        | (st3, .ok _) => (st3, .ok ())
      else
        (st2, .ok ())

/-- The token-exchange POST issued by get_user_tokens. -/
def userTokensRequest (cfg : Config) (keycloak_id subject_token : String) : Request :=
  { method := .post
    url := get_token_url cfg
    body := none
    form := [("audience", cfg.token_exchange_target_client_id),
             ("grant_type", "urn:ietf:params:oauth:grant-type:token-exchange"),
             ("requested_subject", keycloak_id),
             ("subject_token", subject_token),
             ("client_id", cfg.token_exchange_target_client_id),
             ("client_secret", cfg.admin_client_secret)]
    headers := [("Content-Type", "application/x-www-form-urlencoded")] }

/-- KeycloakApiClient.get_user_tokens: obtain the admin token (the data dictionary
of the POST evaluates _get_api_admin_oidc_token for its subject_token entry before
the call goes out), issue the token-exchange POST, raise on non-success, and build
the token pair from the access_token and refresh_token entries of the response
(non-string fields are outside the model and map to the typeError marker). -/
def get_user_tokens (cfg : Config) (o : Oracle) (keycloak_id : String) (st : ClientState) :
    ClientState × Except PyError KeycloakTokens :=
  match get_api_admin_oidc_token cfg o st with
  | (st1, .error e) => (st1, .error e)
  | (st1, .ok subject_token) =>
    let (response, st2) := httpCall o st1 (userTokensRequest cfg keycloak_id subject_token)
    if !response.ok then
      (st2, .error (.apiClientException "Error while obtaining user tokens"))
    else
      match response.jsonBody.getKey "access_token" with
      | .error e => (st2, .error e)
      | .ok (.str access_token) =>
        match response.jsonBody.getKey "refresh_token" with
        | .error e => (st2, .error e)
        | .ok (.str refresh_token) =>
          (st2, .ok { access_token := access_token, refresh_token := refresh_token })
        | .ok _ => (st2, .error .typeError)
      | .ok _ => (st2, .error .typeError)

/-- The GET request issued by search_users. -/
def searchUsersRequest (cfg : Config) (auth query : String) : Request :=
  { method := .get
    url := get_users_url cfg ++ "?search=" ++ quote query
    body := none
    form := []
    headers := [("Authorization", auth)] }

/-- KeycloakApiClient.search_users: GET the search endpoint, raise on non-success,
and return one factory-translated record per returned candidate, in response order.
The endpoint is expected to return a JSON list; any other shape maps to the
typeError marker. -/
def search_users (cfg : Config) (o : Oracle) (query : String) (st : ClientState) :
    ClientState × Except PyError (List ReadKeycloakUser) :=
  match get_authorization_header cfg o st with
  | (st1, .error e) => (st1, .error e)
  | (st1, .ok auth) =>
    let (response, st2) := httpCall o st1 (searchUsersRequest cfg auth query)
    if !response.ok then
      (st2, .error (.apiClientException "Error while retrieving users with query"))
    else
      match response.jsonBody with
      | .arr users => (st2, .ok (users.map read_keycloak_user_factory))
      | _ => (st2, .error .typeError)

/-! ## Helper lemmas -/

theorem pyTruthyStrOpt_some_ne {t : String} (ht : t ≠ "") :
    pyTruthyStrOpt (some t) = true := by
  have hempty : t.isEmpty = false := by
    rw [Bool.eq_false_iff]
    intro h
    exact ht ((String.isEmpty_iff t).mp h)
  simp [pyTruthyStrOpt, hempty]

/-- With a truthy cached token, the token accessor returns it with no state change
and no network call. -/
theorem get_api_admin_oidc_token_cached (cfg : Config) (o : Oracle) (st : ClientState)
    {t : String} (hc : st.admin_user_access_token = some t) (ht : t ≠ "") :
    get_api_admin_oidc_token cfg o st = (st, .ok t) := by
  simp [get_api_admin_oidc_token, hc, pyTruthyStrOpt_some_ne ht]

/-- With a truthy cached token, the authorization header is computed with no state
change and no network call. -/
theorem get_authorization_header_cached (cfg : Config) (o : Oracle) (st : ClientState)
    {t : String} (hc : st.admin_user_access_token = some t) (ht : t ≠ "") :
    get_authorization_header cfg o st = (st, .ok ("Bearer " ++ t)) := by
  simp [get_authorization_header, get_api_admin_oidc_token_cached cfg o st hc ht]

/-! ## Concrete fixtures used by counterexamples and witnesses -/

/-- A concrete configuration. -/
def cfg0 : Config :=
  { keycloak_url := "http://kc"
    realm := "r"
    admin_username := "admin"
    admin_password := "pw"
    admin_client_id := "cid"
    admin_client_secret := "sec"
    token_exchange_target_client_id := "tgt" }

/-- An oracle built from a finite script of responses (a default response is
returned past the end of the script). -/
def Oracle.ofList (rs : List Response) (d : Response) : Oracle :=
  fun n => rs.getD n d

/-- A successful password-grant response carrying a non-empty token. -/
def tokenResponse : Response :=
  { status := 200, jsonBody := .obj [("access_token", .str "tok")], headers := [] }

/-- A concrete user record as the search endpoint returns it. -/
def emailHit : Json :=
  .obj [("id", .str "u-1"), ("email", .str "a@x.com")]

/-! ## C9 -/

/-- C9: at the public interface, get_keycloak_user treats an empty-string email
exactly like an absent one — with no id it raises the usage error with no state
change (hence no network call), and with an id it behaves exactly like the
lookup-by-id call. -/
theorem claim_C9_empty_email_like_absent (cfg : Config) (o : Oracle) (st : ClientState)
    (kid : String) :
    get_keycloak_user cfg o (some "") none st =
      (st, .error (.apiClientException
        "Invalid get user call. Email or Keycloak Id has to be specified.")) ∧
    get_keycloak_user cfg o (some "") (some kid) st =
      get_keycloak_user cfg o none (some kid) st := by
  constructor <;> rfl

/-! ## C4 -/

/-- Oracle for the both-arguments call: a token grant, then a search-by-email
response containing an exact match. -/
def oracleC4 : Oracle :=
  Oracle.ofList
    [tokenResponse, { status := 200, jsonBody := .arr [emailHit], headers := [] }]
    { status := 500, jsonBody := .null, headers := [] }

/-- C4 counterexample: with both an email and an id supplied, the claimed usage
error is not raised — the call performs the lookup-by-email path (two network
requests: token grant plus user search) and returns the found record. -/
theorem claim_C4_counterexample :
    (get_keycloak_user cfg0 oracleC4 (some "a@x.com") (some "u-1") ClientState.fresh).2 =
      .ok (some (read_keycloak_user_factory emailHit)) ∧
    (get_keycloak_user cfg0 oracleC4 (some "a@x.com") (some "u-1") ClientState.fresh).1.trace =
      [adminTokenRequest cfg0, userByEmailRequest cfg0 "Bearer tok" "a@x.com"] := by
  constructor <;> rfl

/-- C4 amended: getUser raises the usage error, before any network call, exactly
when neither a truthy email nor an id is supplied; when a truthy email is supplied
the email lookup is performed regardless of the id argument (email takes
precedence) — supplying both is not rejected. -/
theorem claim_C4_get_user_argument_validation (cfg : Config) (o : Oracle)
    (st : ClientState) (email : Option String) (keycloak_id : Option String) :
    (pyTruthyStrOpt email = false → keycloak_id = none →
      get_keycloak_user cfg o email keycloak_id st =
        (st, .error (.apiClientException
          "Invalid get user call. Email or Keycloak Id has to be specified."))) ∧
    (pyTruthyStrOpt email = true →
      get_keycloak_user cfg o email keycloak_id st =
        get_keycloak_user cfg o email none st) := by
  constructor
  · intro hemail hid
    subst hid
    simp [get_keycloak_user, hemail]
  · intro hemail
    simp [get_keycloak_user, hemail]

/-- Witness for the amended C4 at concrete inputs. -/
theorem claim_C4_get_user_argument_validation_witness :
    get_keycloak_user cfg0 oracleC4 none none ClientState.fresh =
      (ClientState.fresh, .error (.apiClientException
        "Invalid get user call. Email or Keycloak Id has to be specified.")) ∧
    get_keycloak_user cfg0 oracleC4 (some "a@x.com") (some "u-1") ClientState.fresh =
      get_keycloak_user cfg0 oracleC4 (some "a@x.com") none ClientState.fresh :=
  ⟨(claim_C4_get_user_argument_validation cfg0 oracleC4 ClientState.fresh none none).1
      rfl rfl,
   (claim_C4_get_user_argument_validation cfg0 oracleC4 ClientState.fresh
      (some "a@x.com") (some "u-1")).2 rfl⟩

/-! ## C2 -/

/-- Oracle whose password grant always answers with an empty-string access token. -/
def oracleEmptyToken : Oracle :=
  fun _ => { status := 200, jsonBody := .obj [("access_token", .str "")], headers := [] }

/-- Oracle whose password grant answers with a non-empty access token once. -/
def oracleToken : Oracle :=
  Oracle.ofList [tokenResponse] { status := 500, jsonBody := .null, headers := [] }

/-- C2 counterexample: when the password grant returns the empty string as
access_token, the first accessor call stores it in the cache field, yet the second
call on the resulting instance does not return the cached value silently — it
issues a second token-acquisition request (the empty string is falsy), so the two
calls trigger two network calls, not one. -/
theorem claim_C2_counterexample :
    (get_api_admin_oidc_token cfg0 oracleEmptyToken ClientState.fresh).1.admin_user_access_token
      = some "" ∧
    (get_api_admin_oidc_token cfg0 oracleEmptyToken
        (get_api_admin_oidc_token cfg0 oracleEmptyToken ClientState.fresh).1).1.trace =
      [adminTokenRequest cfg0, adminTokenRequest cfg0] := by
  constructor <;> rfl

/-- C2 amended: the admin token is memoized per instance provided the acquired
token is a non-empty string.  A truthy cached token is returned with no state
change and no network call; on a cacheless instance the first accessor call issues
exactly one password-grant request, stores the returned non-empty access token,
and a second call then returns the cached value with no further network call.  (An
empty-string access token is falsy in Python and would be re-fetched.) -/
theorem claim_C2_token_memoized (cfg : Config) (o : Oracle) (st : ClientState)
    (t a : String) :
    (st.admin_user_access_token = some t → t ≠ "" →
      get_api_admin_oidc_token cfg o st = (st, .ok t)) ∧
    (st.admin_user_access_token = none →
      (o st.trace.length).ok = true →
      (o st.trace.length).jsonBody.getKey "access_token" = .ok (.str a) →
      a ≠ "" →
      get_api_admin_oidc_token cfg o st =
        ({ admin_user_access_token := some a, trace := st.trace ++ [adminTokenRequest cfg] },
         .ok a) ∧
      get_api_admin_oidc_token cfg o
          { admin_user_access_token := some a, trace := st.trace ++ [adminTokenRequest cfg] } =
        ({ admin_user_access_token := some a, trace := st.trace ++ [adminTokenRequest cfg] },
         .ok a)) := by
  constructor
  · intro hc ht
    exact get_api_admin_oidc_token_cached cfg o st hc ht
  · intro hc hok hkey ha
    constructor
    · simp [get_api_admin_oidc_token, hc, pyTruthyStrOpt, httpCall, hok, hkey]
    · exact get_api_admin_oidc_token_cached cfg o _ rfl ha

/-- Witness for the amended C2 at concrete inputs. -/
theorem claim_C2_token_memoized_witness :
    (get_api_admin_oidc_token cfg0 oracleToken ClientState.fresh =
      ({ admin_user_access_token := some "tok", trace := [adminTokenRequest cfg0] },
       .ok "tok") ∧
     get_api_admin_oidc_token cfg0 oracleToken
        { admin_user_access_token := some "tok", trace := [adminTokenRequest cfg0] } =
      ({ admin_user_access_token := some "tok", trace := [adminTokenRequest cfg0] },
       .ok "tok")) :=
  (claim_C2_token_memoized cfg0 oracleToken ClientState.fresh "tok" "tok").2
    rfl rfl rfl (by decide)

/-! ## C5 -/

/-- A concrete write-user request carrying an empty-string raw password together
with a hashed password. -/
def bothPasswordsUser : WriteKeycloakUser :=
  { keycloak_id := none
    username := "u"
    first_name := "f"
    last_name := "l"
    email := "e@x.com"
    enabled := true
    email_verified := false
    attributes := .obj []
    raw_password := some ""
    hashed_password := some "h"
    federated_identities := [] }

/-- C5 counterexample: with both passwords present (raw password the empty string,
hashed password "h"), the payload carries the bcrypt block built from the hashed
password — the raw password does not take priority, refuting the claim as stated
for this input. -/
theorem claim_C5_counterexample :
    get_user_endpoint_schema_data bothPasswordsUser =
      .obj (userSchemaBaseFields bothPasswordsUser ++
        [("credentials", .arr [.obj
          [("hashedSaltedValue", .str "h"),
           ("algorithm", .str "bcrypt"),
           ("hashIterations", .num 12),
           ("type", .str "password"),
           ("temporary", .bool false)]])]) := by
  rfl

/-- C5 amended: the payload carries the plain password block when the raw password
is a non-empty string, else the bcrypt block (12 iterations) when the hashed
password is a non-empty string, else no credentials entry at all; a non-empty raw
password takes priority over the hashed one, but an empty-string password field is
treated as absent (Python truthiness). -/
theorem claim_C5_credentials_block (u : WriteKeycloakUser) (r h : String) :
    (u.raw_password = some r → r ≠ "" →
      get_user_endpoint_schema_data u =
        .obj (userSchemaBaseFields u ++
          [("credentials", .arr [.obj
            [("type", .str "password"),
             ("value", .str r),
             ("temporary", .bool false)]])])) ∧
    (pyTruthyStrOpt u.raw_password = false → u.hashed_password = some h → h ≠ "" →
      get_user_endpoint_schema_data u =
        .obj (userSchemaBaseFields u ++
          [("credentials", .arr [.obj
            [("hashedSaltedValue", .str h),
             ("algorithm", .str "bcrypt"),
             ("hashIterations", .num 12),
             ("type", .str "password"),
             ("temporary", .bool false)]])])) ∧
    (pyTruthyStrOpt u.raw_password = false → pyTruthyStrOpt u.hashed_password = false →
      get_user_endpoint_schema_data u = .obj (userSchemaBaseFields u)) := by
  refine ⟨?_, ?_, ?_⟩
  · intro hr hne
    simp [get_user_endpoint_schema_data, hr, pyTruthyStrOpt_some_ne hne]
  · intro hraw hh hne
    simp [get_user_endpoint_schema_data, hraw, hh, pyTruthyStrOpt_some_ne hne]
  · intro hraw hhash
    simp [get_user_endpoint_schema_data, hraw, hhash]

/-- A concrete write-user request with a non-empty raw password only. -/
def rawPasswordUser : WriteKeycloakUser :=
  { bothPasswordsUser with raw_password := some "secret", hashed_password := none }

/-- A concrete write-user request with a hashed password only. -/
def hashedPasswordUser : WriteKeycloakUser :=
  { bothPasswordsUser with raw_password := none, hashed_password := some "h" }

/-- A concrete write-user request with no password at all. -/
def noPasswordUser : WriteKeycloakUser :=
  { bothPasswordsUser with raw_password := none, hashed_password := none }

/-- Witness for the amended C5 at concrete inputs: the three example payloads of
the spec. -/
theorem claim_C5_credentials_block_witness :
    get_user_endpoint_schema_data rawPasswordUser =
      .obj (userSchemaBaseFields rawPasswordUser ++
        [("credentials", .arr [.obj
          [("type", .str "password"),
           ("value", .str "secret"),
           ("temporary", .bool false)]])]) ∧
    get_user_endpoint_schema_data hashedPasswordUser =
      .obj (userSchemaBaseFields hashedPasswordUser ++
        [("credentials", .arr [.obj
          [("hashedSaltedValue", .str "h"),
           ("algorithm", .str "bcrypt"),
           ("hashIterations", .num 12),
           ("type", .str "password"),
           ("temporary", .bool false)]])]) ∧
    get_user_endpoint_schema_data noPasswordUser = .obj (userSchemaBaseFields noPasswordUser) :=
  ⟨(claim_C5_credentials_block rawPasswordUser "secret" "h").1 rfl (by decide),
   (claim_C5_credentials_block hashedPasswordUser "secret" "h").2.1 rfl rfl (by decide),
   (claim_C5_credentials_block noPasswordUser "secret" "h").2.2 rfl rfl⟩

/-! ## C3 -/

/-- The loop of _get_user_by_email agrees with List.find? on the exact-equality
predicate whenever every candidate carries an email entry. -/
theorem findFirstExactEmail_eq_find (email : String) :
    ∀ (users : List Json), (∀ u ∈ users, ∃ v, u.getKey "email" = .ok v) →
      findFirstExactEmail email users =
        .ok (users.find? (fun u =>
          match u.getKey "email" with
          | .ok v => v.eqStr email
          | .error _ => false)) := by
  intro users
  induction users with
  | nil => intro _; rfl
  | cons u rest ih =>
    intro hwf
    obtain ⟨v, hv⟩ := hwf u (by simp)
    by_cases hm : v.eqStr email = true
    · simp [findFirstExactEmail, List.find?, hv, hm]
    · simp [findFirstExactEmail, List.find?, hv, hm,
        ih (fun x hx => hwf x (by simp [hx]))]

/-- C3: with a cached truthy token and a successful search response returning a
list of candidates each carrying an email entry, the lookup-by-email member issues
exactly the one search request and returns the first candidate whose email entry
equals the queried email exactly (case-sensitively), and None both when the list is
empty and when no candidate matches. -/
theorem claim_C3_email_exact_filter (cfg : Config) (o : Oracle) (st : ClientState)
    (t email : String) (users : List Json)
    (hc : st.admin_user_access_token = some t) (ht : t ≠ "")
    (hok : (o st.trace.length).ok = true)
    (hbody : (o st.trace.length).jsonBody = .arr users)
    (hwf : ∀ u ∈ users, ∃ v, u.getKey "email" = .ok v) :
    get_user_by_email cfg o email st =
      ({ st with trace := st.trace ++ [userByEmailRequest cfg ("Bearer " ++ t) email] },
       .ok (users.find? (fun u =>
         match u.getKey "email" with
         | .ok v => v.eqStr email
         | .error _ => false))) := by
  have hauth := get_authorization_header_cached cfg o st hc ht
  cases users with
  | nil => simp [get_user_by_email, hauth, httpCall, hok, hbody]
  | cons u rest =>
    simp only [get_user_by_email, hauth, httpCall, hok, hbody, Bool.not_true,
      Bool.false_eq_true, if_false, List.length_cons]
    rw [findFirstExactEmail_eq_find email (u :: rest) hwf]
    simp

/-- A client state holding a cached non-empty admin token and an empty trace. -/
def stTok : ClientState :=
  { admin_user_access_token := some "tok", trace := [] }

/-- A candidate with a different email. -/
def emailMiss : Json :=
  .obj [("id", .str "u-2"), ("email", .str "b@x.com")]

/-- Oracle answering the search-by-email request with a near miss followed by an
exact hit. -/
def oracleC3 : Oracle :=
  Oracle.ofList [{ status := 200, jsonBody := .arr [emailMiss, emailHit], headers := [] }]
    { status := 500, jsonBody := .null, headers := [] }

/-- Witness for C3 at concrete inputs: the near miss is skipped and the exact
match is returned. -/
theorem claim_C3_email_exact_filter_witness :
    get_user_by_email cfg0 oracleC3 "a@x.com" stTok =
      ({ admin_user_access_token := some "tok",
         trace := [userByEmailRequest cfg0 "Bearer tok" "a@x.com"] },
       .ok (some emailHit)) :=
  claim_C3_email_exact_filter cfg0 oracleC3 stTok "tok" "a@x.com" [emailMiss, emailHit]
    rfl (by decide) rfl rfl
    (by
      intro u hu
      simp only [List.mem_cons, List.not_mem_nil, or_false] at hu
      rcases hu with h | h <;> subst h <;> exact ⟨_, rfl⟩)

/-! ## C6 -/

/-- C6: with a cached truthy token, the lookup-by-id path of getUser issues exactly
the one single-user GET and maps the response as follows — a 404 status returns
None, any other non-success status raises the client exception, and a success with
a truthy body returns the factory-translated record. -/
theorem claim_C6_lookup_by_id (cfg : Config) (o : Oracle) (st : ClientState)
    (t kid : String)
    (hc : st.admin_user_access_token = some t) (ht : t ≠ "") :
    ((o st.trace.length).status = 404 →
      get_keycloak_user cfg o none (some kid) st =
        ({ st with trace := st.trace ++ [userByIdRequest cfg ("Bearer " ++ t) kid] },
         .ok none)) ∧
    ((o st.trace.length).status ≠ 404 → (o st.trace.length).ok = false →
      get_keycloak_user cfg o none (some kid) st =
        ({ st with trace := st.trace ++ [userByIdRequest cfg ("Bearer " ++ t) kid] },
         .error (.apiClientException "Error while retrieving user with id"))) ∧
    ((o st.trace.length).ok = true → (o st.trace.length).jsonBody.truthy = true →
      get_keycloak_user cfg o none (some kid) st =
        ({ st with trace := st.trace ++ [userByIdRequest cfg ("Bearer " ++ t) kid] },
         .ok (some (read_keycloak_user_factory (o st.trace.length).jsonBody)))) := by
  have hauth := get_authorization_header_cached cfg o st hc ht
  refine ⟨?_, ?_, ?_⟩
  · intro h404
    simp [get_keycloak_user, pyTruthyStrOpt, get_user_by_id, hauth, httpCall, h404,
      translateUserData]
  · intro hne hok
    simp [get_keycloak_user, pyTruthyStrOpt, get_user_by_id, hauth, httpCall, hok, hne,
      translateUserData]
  · intro hok htruthy
    have hlt : (o st.trace.length).status < 400 := by
      have := of_decide_eq_true hok
      exact this
    have hne : ((o st.trace.length).status == 404) = false := by
      rw [Bool.eq_false_iff]
      intro hbeq
      have : (o st.trace.length).status = 404 := by
        exact beq_iff_eq.mp hbeq
      omega
    simp [get_keycloak_user, pyTruthyStrOpt, get_user_by_id, hauth, httpCall, hok, hne,
      translateUserData, htruthy]

/-- Oracle answering the single-user GET with 404. -/
def oracle404 : Oracle :=
  fun _ => { status := 404, jsonBody := .null, headers := [] }

/-- Oracle answering the single-user GET with 500. -/
def oracle500 : Oracle :=
  fun _ => { status := 500, jsonBody := .null, headers := [] }

/-- Oracle answering the single-user GET with a successful user record. -/
def oracleUser : Oracle :=
  fun _ => { status := 200, jsonBody := emailHit, headers := [] }

/-- Witness for C6 at concrete inputs: a 404 gives None, a 500 raises, a 200 gives
the translated record. -/
theorem claim_C6_lookup_by_id_witness :
    get_keycloak_user cfg0 oracle404 none (some "u-1") stTok =
      ({ admin_user_access_token := some "tok",
         trace := [userByIdRequest cfg0 "Bearer tok" "u-1"] }, .ok none) ∧
    get_keycloak_user cfg0 oracle500 none (some "u-1") stTok =
      ({ admin_user_access_token := some "tok",
         trace := [userByIdRequest cfg0 "Bearer tok" "u-1"] },
       .error (.apiClientException "Error while retrieving user with id")) ∧
    get_keycloak_user cfg0 oracleUser none (some "u-1") stTok =
      ({ admin_user_access_token := some "tok",
         trace := [userByIdRequest cfg0 "Bearer tok" "u-1"] },
       .ok (some (read_keycloak_user_factory emailHit))) :=
  ⟨(claim_C6_lookup_by_id cfg0 oracle404 stTok "tok" "u-1" rfl (by decide)).1 rfl,
   (claim_C6_lookup_by_id cfg0 oracle500 stTok "tok" "u-1" rfl (by decide)).2.1
     (by decide) rfl,
   (claim_C6_lookup_by_id cfg0 oracleUser stTok "tok" "u-1" rfl (by decide)).2.2 rfl rfl⟩

/-! ## C10 -/

/-- C10: with a cached truthy token, search_users issues exactly the one search
GET; on a success whose body is a list it returns the factory translation of every
candidate, in response order and of the same length, with no client-side
filtering; on a non-success response it raises the client exception. -/
theorem claim_C10_search_users_maps_all (cfg : Config) (o : Oracle) (st : ClientState)
    (t query : String) (users : List Json)
    (hc : st.admin_user_access_token = some t) (ht : t ≠ "") :
    ((o st.trace.length).ok = true → (o st.trace.length).jsonBody = .arr users →
      search_users cfg o query st =
        ({ st with trace := st.trace ++ [searchUsersRequest cfg ("Bearer " ++ t) query] },
         .ok (users.map read_keycloak_user_factory)) ∧
      (users.map read_keycloak_user_factory).length = users.length) ∧
    ((o st.trace.length).ok = false →
      search_users cfg o query st =
        ({ st with trace := st.trace ++ [searchUsersRequest cfg ("Bearer " ++ t) query] },
         .error (.apiClientException "Error while retrieving users with query"))) := by
  have hauth := get_authorization_header_cached cfg o st hc ht
  constructor
  · intro hok hbody
    constructor
    · simp [search_users, hauth, httpCall, hok, hbody]
    · simp
  · intro hok
    simp [search_users, hauth, httpCall, hok]

/-- Oracle answering the search GET with two candidates. -/
def oracleSearch : Oracle :=
  Oracle.ofList [{ status := 200, jsonBody := .arr [emailMiss, emailHit], headers := [] }]
    { status := 500, jsonBody := .null, headers := [] }

/-- Witness for C10 at concrete inputs: both candidates are translated in order,
and a 500 raises. -/
theorem claim_C10_search_users_maps_all_witness :
    (search_users cfg0 oracleSearch "x" stTok =
      ({ admin_user_access_token := some "tok",
         trace := [searchUsersRequest cfg0 "Bearer tok" "x"] },
       .ok [read_keycloak_user_factory emailMiss, read_keycloak_user_factory emailHit]) ∧
     [read_keycloak_user_factory emailMiss, read_keycloak_user_factory emailHit].length =
       [emailMiss, emailHit].length) ∧
    search_users cfg0 oracle500 "x" stTok =
      ({ admin_user_access_token := some "tok",
         trace := [searchUsersRequest cfg0 "Bearer tok" "x"] },
       .error (.apiClientException "Error while retrieving users with query")) :=
  ⟨(claim_C10_search_users_maps_all cfg0 oracleSearch stTok "tok" "x"
      [emailMiss, emailHit] rfl (by decide)).1 rfl rfl,
   (claim_C10_search_users_maps_all cfg0 oracle500 stTok "tok" "x"
      [emailMiss, emailHit] rfl (by decide)).2 rfl⟩

/-! ## C8 -/

/-- C8: get_user_tokens always issues exactly one token-exchange POST (never
cached) whose form body carries requested_subject equal to the id and
subject_token equal to the admin token; with a cached truthy token no other
request is issued, while on a cacheless instance the admin token is lazily
acquired by one preceding password-grant request; a successful exchange returns
the pair built from the access_token and refresh_token fields, a non-success
raises the client exception. -/
theorem claim_C8_user_tokens_exchange (cfg : Config) (o : Oracle) (st : ClientState)
    (t kid a r : String) :
    (userTokensRequest cfg kid t).form.lookup "requested_subject" = some kid ∧
    (userTokensRequest cfg kid t).form.lookup "subject_token" = some t ∧
    (st.admin_user_access_token = some t → t ≠ "" →
      ((o st.trace.length).ok = true →
       (o st.trace.length).jsonBody.getKey "access_token" = .ok (.str a) →
       (o st.trace.length).jsonBody.getKey "refresh_token" = .ok (.str r) →
        get_user_tokens cfg o kid st =
          ({ st with trace := st.trace ++ [userTokensRequest cfg kid t] },
           .ok { access_token := a, refresh_token := r })) ∧
      ((o st.trace.length).ok = false →
        get_user_tokens cfg o kid st =
          ({ st with trace := st.trace ++ [userTokensRequest cfg kid t] },
           .error (.apiClientException "Error while obtaining user tokens")))) ∧
    (st.admin_user_access_token = none →
      (o st.trace.length).ok = true →
      (o st.trace.length).jsonBody.getKey "access_token" = .ok (.str t) →
      t ≠ "" →
      (o (st.trace.length + 1)).ok = true →
      (o (st.trace.length + 1)).jsonBody.getKey "access_token" = .ok (.str a) →
      (o (st.trace.length + 1)).jsonBody.getKey "refresh_token" = .ok (.str r) →
      get_user_tokens cfg o kid st =
        ({ admin_user_access_token := some t,
           trace := (st.trace ++ [adminTokenRequest cfg]) ++ [userTokensRequest cfg kid t] },
         .ok { access_token := a, refresh_token := r })) := by
  refine ⟨rfl, rfl, ?_, ?_⟩
  · intro hc ht
    have htok := get_api_admin_oidc_token_cached cfg o st hc ht
    constructor
    · intro hok hacc href
      simp [get_user_tokens, htok, httpCall, hok, hacc, href]
    · intro hok
      simp [get_user_tokens, htok, httpCall, hok]
  · intro hnone hok0 hacc0 htne hok1 hacc1 href1
    have hfresh : get_api_admin_oidc_token cfg o st =
        ({ admin_user_access_token := some t,
           trace := st.trace ++ [adminTokenRequest cfg] }, .ok t) := by
      simp [get_api_admin_oidc_token, hnone, pyTruthyStrOpt, httpCall, hok0, hacc0]
    have hlen : ({ admin_user_access_token := some t,
                   trace := st.trace ++ [adminTokenRequest cfg] } :
        ClientState).trace.length = st.trace.length + 1 := by
      simp
    simp only [get_user_tokens, hfresh, httpCall, hlen, hok1, Bool.not_true,
      Bool.false_eq_true, if_false, hacc1, href1]

/-- A successful token-exchange response. -/
def exchangeOkResponse : Response :=
  { status := 200,
    jsonBody := .obj [("access_token", .str "at"), ("refresh_token", .str "rt")],
    headers := [] }

/-- Oracle answering the token-exchange POST with an access and refresh token. -/
def oracleExchange : Oracle :=
  Oracle.ofList [exchangeOkResponse] { status := 500, jsonBody := .null, headers := [] }

/-- Oracle answering a password grant and then the token-exchange POST. -/
def oracleLazyExchange : Oracle :=
  Oracle.ofList [tokenResponse, exchangeOkResponse]
    { status := 500, jsonBody := .null, headers := [] }

/-- Witness for C8 at concrete inputs: with a cached token a success builds the
token pair and a 500 raises; on a fresh instance the admin token is acquired by
one password grant before the single exchange request. -/
theorem claim_C8_user_tokens_exchange_witness :
    get_user_tokens cfg0 oracleExchange "u-1" stTok =
      ({ admin_user_access_token := some "tok",
         trace := [userTokensRequest cfg0 "u-1" "tok"] },
       .ok { access_token := "at", refresh_token := "rt" }) ∧
    get_user_tokens cfg0 oracle500 "u-1" stTok =
      ({ admin_user_access_token := some "tok",
         trace := [userTokensRequest cfg0 "u-1" "tok"] },
       .error (.apiClientException "Error while obtaining user tokens")) ∧
    get_user_tokens cfg0 oracleLazyExchange "u-1" ClientState.fresh =
      ({ admin_user_access_token := some "tok",
         trace := [adminTokenRequest cfg0, userTokensRequest cfg0 "u-1" "tok"] },
       .ok { access_token := "at", refresh_token := "rt" }) :=
  ⟨((claim_C8_user_tokens_exchange cfg0 oracleExchange stTok "tok" "u-1" "at" "rt").2.2.1
      rfl (by decide)).1 rfl rfl rfl,
   ((claim_C8_user_tokens_exchange cfg0 oracle500 stTok "tok" "u-1" "at" "rt").2.2.1
      rfl (by decide)).2 rfl,
   (claim_C8_user_tokens_exchange cfg0 oracleLazyExchange ClientState.fresh
      "tok" "u-1" "at" "rt").2.2.2 rfl rfl rfl (by decide) rfl rfl rfl⟩

/-! ## C1 -/

/-- When every response is successful, the reconciliation loop issues exactly one
upsert per desired link whose provider is a current key, in list order, and no
other request. -/
theorem update_loop_all_ok (cfg : Config) (o : Oracle) (t kid : String)
    (keys : List Json) (ht : t ≠ "") (hok : ∀ n, (o n).ok = true) :
    ∀ (links : List KeycloakFederatedIdentity) (st : ClientState),
      st.admin_user_access_token = some t →
      update_user_identities_loop cfg o kid keys links st =
        ({ st with trace := st.trace ++
                             (links.filter (providerPresent keys)).map
                               (upsertIdentityRequest cfg ("Bearer " ++ t) kid) },
         .ok ()) := by
  intro links
  induction links with
  | nil =>
    intro st hc
    simp [update_user_identities_loop]
  | cons l rest ih =>
    intro st hc
    have hauth := get_authorization_header_cached cfg o st hc ht
    by_cases hmem : providerPresent keys l = true
    · have hrec := ih { st with trace := st.trace ++
        [upsertIdentityRequest cfg ("Bearer " ++ t) kid l] } (by simpa using hc)
      simp only [update_user_identities_loop, hmem, if_true, hauth, httpCall,
        hok (st.trace.length), Bool.not_true, Bool.false_eq_true, if_false, hrec,
        List.filter_cons_of_pos, List.map_cons]
      simp [List.append_assoc]
    · have hrec := ih st hc
      rw [Bool.not_eq_true] at hmem
      simp only [update_user_identities_loop, hmem, Bool.false_eq_true, if_false, hrec]
      simp [List.filter_cons_of_neg, hmem]

/-- C1: under a cached truthy token and an all-successful oracle whose first
response carries the current federated identities (keyed by identityProvider via
collectIdentityKeys), the reconciliation member first issues exactly one identities
GET and then one upsert POST per desired link whose provider name is already a
current key, in the order of the caller-supplied list — and no request at all for
a desired link whose provider is absent, so a brand-new provider link is never
created. -/
theorem claim_C1_reconciler_updates_only_existing (cfg : Config) (o : Oracle)
    (st : ClientState) (t kid : String) (links : List KeycloakFederatedIdentity)
    (curr : List Json) (keys : List Json)
    (hc : st.admin_user_access_token = some t) (ht : t ≠ "")
    (hok : ∀ n, (o n).ok = true)
    (hbody : (o st.trace.length).jsonBody = .arr curr)
    (hkeys : collectIdentityKeys curr = .ok keys) :
    update_user_identities cfg o kid links st =
      ({ st with trace := (st.trace ++ [identitiesGetRequest cfg ("Bearer " ++ t) kid]) ++
                           (links.filter (providerPresent keys)).map
                             (upsertIdentityRequest cfg ("Bearer " ++ t) kid) },
       .ok ()) := by
  have hauth := get_authorization_header_cached cfg o st hc ht
  have hids : get_user_identities cfg o kid st =
      ({ st with trace := st.trace ++ [identitiesGetRequest cfg ("Bearer " ++ t) kid] },
       .ok (.arr curr)) := by
    simp [get_user_identities, hauth, httpCall, hok st.trace.length, hbody]
  have hloop := update_loop_all_ok cfg o t kid keys ht hok links
    { st with trace := st.trace ++ [identitiesGetRequest cfg ("Bearer " ++ t) kid] }
    (by simpa using hc)
  simp only [update_user_identities, hids, hkeys, hloop]

/-- The google link of the spec example. -/
def googleLink : KeycloakFederatedIdentity :=
  { provider_name := "google", user_id := "1", user_name := "g" }

/-- The facebook link of the spec example. -/
def facebookLink : KeycloakFederatedIdentity :=
  { provider_name := "facebook", user_id := "2", user_name := "f" }

/-- Current remote identities of the spec example: only google. -/
def currentIdentities : List Json :=
  [.obj [("identityProvider", .str "google"),
         ("userId", .str "0"),
         ("userName", .str "old")]]

/-- Oracle for the reconciliation example: the identities GET answers with the
google-only list, every further call succeeds with 204. -/
def oracleReconcile : Oracle :=
  Oracle.ofList [{ status := 200, jsonBody := .arr currentIdentities, headers := [] }]
    { status := 204, jsonBody := .null, headers := [] }

/-- Witness for C1 at the spec example: desired links google and facebook against
a current set holding only google produce exactly one upsert (for google) after
the identities GET, and no request at all for facebook. -/
theorem claim_C1_reconciler_updates_only_existing_witness :
    update_user_identities cfg0 oracleReconcile "u-1" [googleLink, facebookLink] stTok =
      ({ admin_user_access_token := some "tok",
         trace := [identitiesGetRequest cfg0 "Bearer tok" "u-1",
                   upsertIdentityRequest cfg0 "Bearer tok" "u-1" googleLink] },
       .ok ()) :=
  claim_C1_reconciler_updates_only_existing cfg0 oracleReconcile stTok "tok" "u-1"
    [googleLink, facebookLink] currentIdentities [.str "google"]
    rfl (by decide)
    (by intro n; cases n with | zero => rfl | succ m => rfl)
    rfl rfl

/-! ## C7 -/

/-- When the upserts for a prefix of present-provider links succeed and the next
upsert fails, the reconciliation loop issues exactly the prefix upserts followed by
the failing one, in list order, then raises — links after the failure produce no
request, and no earlier request is retracted. -/
theorem update_loop_first_failure (cfg : Config) (o : Oracle) (t kid : String)
    (keys : List Json) (ht : t ≠ "") :
    ∀ (lpre : List KeycloakFederatedIdentity) (l : KeycloakFederatedIdentity)
      (lrest : List KeycloakFederatedIdentity) (st : ClientState),
      st.admin_user_access_token = some t →
      (∀ x ∈ lpre, providerPresent keys x = true) →
      providerPresent keys l = true →
      (∀ i, i < lpre.length → (o (st.trace.length + i)).ok = true) →
      (o (st.trace.length + lpre.length)).ok = false →
      update_user_identities_loop cfg o kid keys (lpre ++ l :: lrest) st =
        ({ st with trace := (st.trace ++
                              lpre.map (upsertIdentityRequest cfg ("Bearer " ++ t) kid)) ++
                            [upsertIdentityRequest cfg ("Bearer " ++ t) kid l] },
         .error (.apiClientException "Error while creating identity for user")) := by
  intro lpre
  induction lpre with
  | nil =>
    intro l lrest st hc hpre hl hoks hfail
    have hauth := get_authorization_header_cached cfg o st hc ht
    simp only [List.length_nil, Nat.add_zero] at hfail
    simp [update_user_identities_loop, hl, hauth, httpCall, hfail]
  | cons x lpre ih =>
    intro l lrest st hc hpre hx hoks hfail
    have hauth := get_authorization_header_cached cfg o st hc ht
    have hmemx : providerPresent keys x = true := hpre x (by simp)
    have hok0 : (o st.trace.length).ok = true := by
      have h := hoks 0 (by simp)
      simpa using h
    have hlen2 : ({ st with trace := st.trace ++
                     [upsertIdentityRequest cfg ("Bearer " ++ t) kid x] } :
        ClientState).trace.length = st.trace.length + 1 := by
      simp
    have hrec := ih l lrest
      { st with trace := st.trace ++ [upsertIdentityRequest cfg ("Bearer " ++ t) kid x] }
      (by simpa using hc)
      (fun y hy => hpre y (by simp [hy]))
      hx
      (fun i hi => by
        rw [hlen2]
        have h := hoks (i + 1) (by simpa using Nat.succ_lt_succ hi)
        have harith : st.trace.length + i + 1 = st.trace.length + (i + 1) := by omega
        rw [Nat.add_right_comm, harith]
        exact h)
      (by
        rw [hlen2]
        have harith : st.trace.length + 1 + lpre.length =
            st.trace.length + (x :: lpre).length := by
          simp
          omega
        rw [harith]
        exact hfail)
    simp only [List.cons_append, update_user_identities_loop, hmemx, if_true, hauth,
      httpCall, hok0, Bool.not_true, Bool.false_eq_true, if_false, List.append_eq]
    rw [hrec]
    simp [List.append_assoc]

/-- C7: upserts are issued strictly in the order of the caller-supplied link list;
the first non-success response aborts the whole reconciliation with the client
exception while the upserts already issued stay in the trace and nothing further
is sent (no rollback request); and when reconciliation fails after a successful
user creation inside register_user, the same exception propagates and the creation
request likewise stays in the trace with no rollback request. -/
theorem claim_C7_sequential_abort_no_rollback (cfg : Config) (o : Oracle) (t : String)
    (ht : t ≠ "") :
    (∀ (st : ClientState) (kid : String) (curr keys : List Json)
       (lpre : List KeycloakFederatedIdentity) (l : KeycloakFederatedIdentity)
       (lrest : List KeycloakFederatedIdentity),
      st.admin_user_access_token = some t →
      (o st.trace.length).ok = true →
      (o st.trace.length).jsonBody = .arr curr →
      collectIdentityKeys curr = .ok keys →
      (∀ x ∈ lpre, providerPresent keys x = true) →
      providerPresent keys l = true →
      (∀ i, i < lpre.length → (o (st.trace.length + 1 + i)).ok = true) →
      (o (st.trace.length + 1 + lpre.length)).ok = false →
      update_user_identities cfg o kid (lpre ++ l :: lrest) st =
        ({ st with trace := ((st.trace ++ [identitiesGetRequest cfg ("Bearer " ++ t) kid]) ++
                              lpre.map (upsertIdentityRequest cfg ("Bearer " ++ t) kid)) ++
                            [upsertIdentityRequest cfg ("Bearer " ++ t) kid l] },
         .error (.apiClientException "Error while creating identity for user"))) ∧
    (∀ (st : ClientState) (u : WriteKeycloakUser) (loc : String) (curr keys : List Json)
       (l : KeycloakFederatedIdentity),
      st.admin_user_access_token = some t →
      u.federated_identities = [l] →
      (o st.trace.length).ok = true →
      (o st.trace.length).headers.lookup "Location" = some loc →
      (o (st.trace.length + 1)).ok = true →
      (o (st.trace.length + 1)).jsonBody = .arr curr →
      collectIdentityKeys curr = .ok keys →
      providerPresent keys l = true →
      (o (st.trace.length + 2)).ok = false →
      register_user cfg o u st =
        ({ st with trace := ((st.trace ++ [registerUserRequest cfg ("Bearer " ++ t) u]) ++
                              [identitiesGetRequest cfg ("Bearer " ++ t) (lastPathSegment loc)]) ++
                            [upsertIdentityRequest cfg ("Bearer " ++ t) (lastPathSegment loc) l] },
         .error (.apiClientException "Error while creating identity for user"))) := by
  have part1 : ∀ (st : ClientState) (kid : String) (curr keys : List Json)
      (lpre : List KeycloakFederatedIdentity) (l : KeycloakFederatedIdentity)
      (lrest : List KeycloakFederatedIdentity),
      st.admin_user_access_token = some t →
      (o st.trace.length).ok = true →
      (o st.trace.length).jsonBody = .arr curr →
      collectIdentityKeys curr = .ok keys →
      (∀ x ∈ lpre, providerPresent keys x = true) →
      providerPresent keys l = true →
      (∀ i, i < lpre.length → (o (st.trace.length + 1 + i)).ok = true) →
      (o (st.trace.length + 1 + lpre.length)).ok = false →
      update_user_identities cfg o kid (lpre ++ l :: lrest) st =
        ({ st with trace := ((st.trace ++ [identitiesGetRequest cfg ("Bearer " ++ t) kid]) ++
                              lpre.map (upsertIdentityRequest cfg ("Bearer " ++ t) kid)) ++
                            [upsertIdentityRequest cfg ("Bearer " ++ t) kid l] },
         .error (.apiClientException "Error while creating identity for user")) := by
    intro st kid curr keys lpre l lrest hc hok0 hbody hkeys hpre hl hoks hfail
    have hauth := get_authorization_header_cached cfg o st hc ht
    have hids : get_user_identities cfg o kid st =
        ({ st with trace := st.trace ++ [identitiesGetRequest cfg ("Bearer " ++ t) kid] },
         .ok (.arr curr)) := by
      simp [get_user_identities, hauth, httpCall, hok0, hbody]
    have hloop := update_loop_first_failure cfg o t kid keys ht lpre l lrest
      { st with trace := st.trace ++ [identitiesGetRequest cfg ("Bearer " ++ t) kid] }
      (by simpa using hc) hpre hl
      (fun i hi => by
        have hlen : ({ st with trace :=
            st.trace ++ [identitiesGetRequest cfg ("Bearer " ++ t) kid] } :
            ClientState).trace.length + i = st.trace.length + 1 + i := by
          simp only [List.length_append, List.length_cons, List.length_nil]
        rw [hlen]
        exact hoks i hi)
      (by
        have hlen : ({ st with trace :=
            st.trace ++ [identitiesGetRequest cfg ("Bearer " ++ t) kid] } :
            ClientState).trace.length + lpre.length = st.trace.length + 1 + lpre.length := by
          simp only [List.length_append, List.length_cons, List.length_nil]
        rw [hlen]
        exact hfail)
    simp only [update_user_identities, hids, hkeys, hloop]
  refine ⟨part1, ?_⟩
  intro st u loc curr keys l hc hfid hcok hloc hgok hbody hkeys hl hfail
  have hauth := get_authorization_header_cached cfg o st hc ht
  have hupd := part1
    { st with trace := st.trace ++ [registerUserRequest cfg ("Bearer " ++ t) u] }
    (lastPathSegment loc) curr keys [] l []
    (by simpa using hc)
    (by
      have hlen : ({ st with trace :=
          st.trace ++ [registerUserRequest cfg ("Bearer " ++ t) u] } :
          ClientState).trace.length = st.trace.length + 1 := by
        simp
      rw [hlen]
      exact hgok)
    (by
      have hlen : ({ st with trace :=
          st.trace ++ [registerUserRequest cfg ("Bearer " ++ t) u] } :
          ClientState).trace.length = st.trace.length + 1 := by
        simp
      rw [hlen]
      exact hbody)
    hkeys
    (by intro x hx; cases hx)
    hl
    (by intro i hi; cases hi)
    (by
      have hlen : ({ st with trace :=
          st.trace ++ [registerUserRequest cfg ("Bearer " ++ t) u] } :
          ClientState).trace.length + 1 + 0 = st.trace.length + 2 := by
        simp only [List.length_append, List.length_cons, List.length_nil]
      rw [hlen]
      exact hfail)
  simp only [List.nil_append, List.map_nil] at hupd
  have hne : u.federated_identities.isEmpty = false := by
    rw [hfid]
    rfl
  simp only [register_user, hauth, httpCall, hcok, Bool.not_true, Bool.false_eq_true,
    if_false, hloc, hfid, hne, Bool.not_false, if_true]
  rw [hupd]
  simp [List.append_assoc]

/-- A second current identity set holding google and gitlab. -/
def currentIdentitiesTwo : List Json :=
  [.obj [("identityProvider", .str "google"),
         ("userId", .str "0"),
         ("userName", .str "oldg")],
   .obj [("identityProvider", .str "gitlab"),
         ("userId", .str "3"),
         ("userName", .str "oldl")]]

/-- The gitlab link. -/
def gitlabLink : KeycloakFederatedIdentity :=
  { provider_name := "gitlab", user_id := "3", user_name := "l" }

/-- Oracle for the aborting reconciliation: identities GET succeeds, the first
upsert succeeds, the second upsert fails with 500. -/
def oracleAbort : Oracle :=
  Oracle.ofList
    [{ status := 200, jsonBody := .arr currentIdentitiesTwo, headers := [] },
     { status := 204, jsonBody := .null, headers := [] },
     { status := 500, jsonBody := .null, headers := [] }]
    { status := 500, jsonBody := .null, headers := [] }

/-- A write-user request carrying one federated identity link. -/
def regUser : WriteKeycloakUser :=
  { bothPasswordsUser with
      raw_password := some "secret"
      hashed_password := none
      federated_identities := [googleLink] }

/-- Oracle for the failing registration: the create POST succeeds and assigns an
id via the Location header, the identities GET succeeds, the upsert fails. -/
def oracleRegisterFail : Oracle :=
  Oracle.ofList
    [{ status := 201, jsonBody := .null,
       headers := [("Location", "http://kc/auth/admin/realms/r/users/u-9")] },
     { status := 200, jsonBody := .arr currentIdentities, headers := [] },
     { status := 500, jsonBody := .null, headers := [] }]
    { status := 500, jsonBody := .null, headers := [] }

/-- Witness for C7 at concrete inputs: the reconciliation of google, gitlab,
facebook against a google+gitlab current set stops at the failing gitlab upsert
with the google upsert already applied and no facebook call; and a failing
reconciliation inside register_user leaves the successful creation request in the
trace, issues no rollback call, and surfaces the same exception. -/
theorem claim_C7_sequential_abort_no_rollback_witness :
    update_user_identities cfg0 oracleAbort "u-1" [googleLink, gitlabLink, facebookLink]
        stTok =
      ({ admin_user_access_token := some "tok",
         trace := [identitiesGetRequest cfg0 "Bearer tok" "u-1",
                   upsertIdentityRequest cfg0 "Bearer tok" "u-1" googleLink,
                   upsertIdentityRequest cfg0 "Bearer tok" "u-1" gitlabLink] },
       .error (.apiClientException "Error while creating identity for user")) ∧
    register_user cfg0 oracleRegisterFail regUser stTok =
      ({ admin_user_access_token := some "tok",
         trace := [registerUserRequest cfg0 "Bearer tok" regUser,
                   identitiesGetRequest cfg0 "Bearer tok" "u-9",
                   upsertIdentityRequest cfg0 "Bearer tok" "u-9" googleLink] },
       .error (.apiClientException "Error while creating identity for user")) :=
  ⟨(claim_C7_sequential_abort_no_rollback cfg0 oracleAbort "tok" (by decide)).1
      stTok "u-1" currentIdentitiesTwo [.str "google", .str "gitlab"]
      [googleLink] gitlabLink [facebookLink]
      rfl rfl rfl rfl
      (by
        intro x hx
        simp only [List.mem_cons, List.not_mem_nil, or_false] at hx
        subst hx
        rfl)
      rfl
      (by
        intro i hi
        simp only [List.length_cons, List.length_nil] at hi
        have h0 : i = 0 := by omega
        subst h0
        rfl)
      rfl,
   (claim_C7_sequential_abort_no_rollback cfg0 oracleRegisterFail "tok" (by decide)).2
      stTok regUser "http://kc/auth/admin/realms/r/users/u-9" currentIdentities
      [.str "google"] googleLink
      rfl rfl rfl rfl rfl rfl rfl rfl rfl⟩
